import Mathlib

/-!
# Upload manager usage examples: a verification development

Shallow embedding of `codedocs/frontend/libs/uploadManager.examples.js`.

* JavaScript values are the inductive type `JSVal`; an object is an ordered
  property list.  Objects are values here, so strict equality on two objects is
  structural.  Numbers are the integers plus `NaN`.
* React state is passed explicitly: a state setter called with an updater
  function is the application of that updater to the previous state.
* The upload manager library itself is imported by the examples and is not part
  of this file: a manager is a parameter (`UploadManager`), each operation
  mapping its arguments and the manager state to the settled outcome of the
  promise it returns (`Except.ok` for resolved, `Except.error` for rejected).
* Console output is recorded only where a control-flow branch is observed
  through it (bulk operations); toast notifications are recorded as a list.
* Timers are a table of pending host timers; time is in whole milliseconds.
-/

namespace UploadManagerExamples

/-! ## JavaScript values -/

/-- JavaScript values: primitives and objects (ordered property lists). -/
inductive JSVal where
  | undefined
  | null
  | bool (b : Bool)
  | num (n : Int)
  | nan
  | str (s : String)
  | obj (fields : List (String × JSVal))

/-- An object: its own enumerable properties in insertion order. -/
abbrev JSObject := List (String × JSVal)

mutual
/-- Structural equality of values is decidable. -/
def JSVal.decEq : (a b : JSVal) → Decidable (a = b)
  | .undefined, .undefined => isTrue rfl
  | .null, .null => isTrue rfl
  | .nan, .nan => isTrue rfl
  | .bool a, .bool b =>
    if h : a = b then isTrue (by rw [h]) else isFalse (by intro e; injection e; contradiction)
  | .num a, .num b =>
    if h : a = b then isTrue (by rw [h]) else isFalse (by intro e; injection e; contradiction)
  | .str a, .str b =>
    if h : a = b then isTrue (by rw [h]) else isFalse (by intro e; injection e; contradiction)
  | .obj a, .obj b =>
    match JSVal.decEqFields a b with
    | isTrue h => isTrue (by rw [h])
    | isFalse h => isFalse (by intro e; injection e; contradiction)
  | .undefined, .null | .undefined, .bool _ | .undefined, .num _ | .undefined, .nan
  | .undefined, .str _ | .undefined, .obj _ => isFalse (by intro e; cases e)
  | .null, .undefined | .null, .bool _ | .null, .num _ | .null, .nan
  | .null, .str _ | .null, .obj _ => isFalse (by intro e; cases e)
  | .bool _, .undefined | .bool _, .null | .bool _, .num _ | .bool _, .nan
  | .bool _, .str _ | .bool _, .obj _ => isFalse (by intro e; cases e)
  | .num _, .undefined | .num _, .null | .num _, .bool _ | .num _, .nan
  | .num _, .str _ | .num _, .obj _ => isFalse (by intro e; cases e)
  | .nan, .undefined | .nan, .null | .nan, .bool _ | .nan, .num _
  | .nan, .str _ | .nan, .obj _ => isFalse (by intro e; cases e)
  | .str _, .undefined | .str _, .null | .str _, .bool _ | .str _, .num _
  | .str _, .nan | .str _, .obj _ => isFalse (by intro e; cases e)
  | .obj _, .undefined | .obj _, .null | .obj _, .bool _ | .obj _, .num _
  | .obj _, .nan | .obj _, .str _ => isFalse (by intro e; cases e)
/-- Structural equality of property lists is decidable. -/
def JSVal.decEqFields : (a b : List (String × JSVal)) → Decidable (a = b)
  | [], [] => isTrue rfl
  | [], _ :: _ => isFalse (by intro e; cases e)
  | _ :: _, [] => isFalse (by intro e; cases e)
  | (k, v) :: as, (k2, v2) :: bs =>
    if hk : k = k2 then
      match JSVal.decEq v v2 with
      | isTrue hv =>
        match JSVal.decEqFields as bs with
        | isTrue ht => isTrue (by rw [hk, hv, ht])
        | isFalse ht => isFalse (by intro e; injection e; contradiction)
      | isFalse hv => isFalse (by intro e; injection e with e1 e2; injection e1; contradiction)
    else isFalse (by intro e; injection e with e1 e2; injection e1; contradiction)
end

instance : DecidableEq JSVal := JSVal.decEq

/-- JavaScript truthiness (`ToBoolean`). -/
def JSVal.truthy : JSVal → Bool
  | .undefined => false
  | .null => false
  | .nan => false
  | .bool b => b
  | .num n => decide (n ≠ 0)
  | .str s => decide (s ≠ "")
  | .obj _ => true

/-- The operator `a === b`: `NaN` is not equal to itself, otherwise values are compared. -/
def strictEq (a b : JSVal) : Bool :=
  if a = .nan then false else decide (a = b)

/-- The operator `a || b`: the left operand when it is truthy, otherwise the right one. -/
def jsOr (a b : JSVal) : JSVal :=
  if a.truthy then a else b

/-- Property read `o.k` on an object: `undefined` when the property is absent. -/
def getProp : JSObject → String → JSVal
  | [], _ => .undefined
  | (k2, v) :: rest, k => if k2 = k then v else getProp rest k

/-- Property definition, as performed by an object literal `{ ...o, k: v }`: an existing
property keeps its position and takes the new value, a new property is appended. -/
def setProp : JSObject → String → JSVal → JSObject
  | [], k, v => [(k, v)]
  | (k2, v2) :: rest, k, v => if k2 = k then (k, v) :: rest else (k2, v2) :: setProp rest k v

/-- The value thrown by a property read on `undefined` or `null`. -/
def typeError : JSVal := .obj [("name", .str "TypeError")]

/-- Property read `x.k` on an arbitrary value: throws on `undefined` and `null`, reads the
property of an object, and yields `undefined` on the other primitives (none of the property
names used by the examples exists on a primitive wrapper). -/
def getMember : JSVal → String → Except JSVal JSVal
  | .undefined, _ => .error typeError
  | .null, _ => .error typeError
  | .obj fields, k => .ok (getProp fields k)
  | _, _ => .ok .undefined

/-- `String.prototype.includes`: the search string occurs as a contiguous substring. -/
def includes (s searchString : String) : Bool :=
  s.data.tails.any (fun t => searchString.data.isPrefixOf t)

/-! ## The upload manager (external library, a parameter of the examples) -/

/-- The operations of an upload manager used by the examples. Each takes the call arguments
and the state of the manager and remote store, and returns the settled outcome of the promise
together with the new state. -/
structure UploadManager (σ : Type) where
  uploadSingleFile : JSVal → JSVal → JSVal → σ → Except JSVal JSVal × σ
  downloadFile : JSVal → JSVal → JSVal → σ → Except JSVal Unit × σ
  removeFile : JSVal → JSVal → JSVal → σ → Except JSVal Unit × σ

/-- The four callbacks a manager may deliver, with their arguments. The success payload is
an object. -/
inductive Callback where
  | onProgress (fileId progress : JSVal)
  | onStatusChange (fileId status : JSVal)
  | onSuccess (fileId : JSVal) (result : JSObject)
  | onError (fileId error : JSVal)

/-- The correlation id carried by a callback. -/
def Callback.fileId : Callback → JSVal
  | .onProgress fileId _ => fileId
  | .onStatusChange fileId _ => fileId
  | .onSuccess fileId _ => fileId
  | .onError fileId _ => fileId

/-! ## Example 1: `useBudgetUploadExample` -/

/-- The callback `onProgress`: the updater passed to `setUploadedFiles`, applied to `prev`. -/
def useBudgetUploadExample.onProgress (fileId progress : JSVal) (prev : List JSObject) :
    List JSObject :=
  prev.map (fun file =>
    if strictEq (getProp file "id") fileId then setProp file "progress" progress else file)

/-- The callback `onStatusChange`. -/
def useBudgetUploadExample.onStatusChange (fileId status : JSVal) (prev : List JSObject) :
    List JSObject :=
  prev.map (fun file =>
    if strictEq (getProp file "id") fileId then setProp file "status" status else file)

/-- The callback `onSuccess`. -/
def useBudgetUploadExample.onSuccess (fileId : JSVal) (result : JSObject)
    (prev : List JSObject) : List JSObject :=
  prev.map (fun file =>
    if strictEq (getProp file "id") fileId then
      setProp
        (setProp (setProp file "status" (.str "success"))
          "onedrive_item_id" (getProp result "onedrive_item_id"))
        "download_url" (getProp result "onedrive_download_url")
    else file)

/-- The callback `onError`. -/
def useBudgetUploadExample.onError (fileId error : JSVal) (prev : List JSObject) :
    List JSObject :=
  prev.map (fun file =>
    if strictEq (getProp file "id") fileId then
      setProp (setProp file "status" (.str "error")) "error" error
    else file)

/-- Delivery of one callback to the hook. -/
def useBudgetUploadExample.deliver : Callback → List JSObject → List JSObject
  | .onProgress fileId progress => useBudgetUploadExample.onProgress fileId progress
  | .onStatusChange fileId status => useBudgetUploadExample.onStatusChange fileId status
  | .onSuccess fileId result => useBudgetUploadExample.onSuccess fileId result
  | .onError fileId error => useBudgetUploadExample.onError fileId error

/-- Delivery of a finite sequence of callbacks, first to last. -/
def useBudgetUploadExample.run : List Callback → List JSObject → List JSObject
  | [], files => files
  | cb :: rest, files => useBudgetUploadExample.run rest (useBudgetUploadExample.deliver cb files)

/-- The outcome of `handleRemoveFile`: how the returned promise settles, the list
`uploadedFiles` afterwards, and the manager state. -/
structure RemoveRun (σ : Type) where
  outcome : Except JSVal Unit
  uploadedFiles : List JSObject
  state : σ

/-- The handler `handleRemoveFile`. `ref` is `uploadManagerRef.current` (`none` for `null`).
When the awaited `removeFile` rejects, the state update after it is not reached. -/
def useBudgetUploadExample.handleRemoveFile {σ : Type} (ref : Option (UploadManager σ))
    (oneDriveItemId fileName : JSVal) (uploadedFiles : List JSObject) (s : σ) : RemoveRun σ :=
  match ref with
  | none => { outcome := .ok (), uploadedFiles := uploadedFiles, state := s }
  | some m =>
    match m.removeFile oneDriveItemId fileName (.bool true) s with
    | (.ok _, s1) =>
      { outcome := .ok ()
        uploadedFiles :=
          uploadedFiles.filter
            (fun file => !strictEq (getProp file "onedrive_item_id") oneDriveItemId)
        state := s1 }
    | (.error e, s1) => { outcome := .error e, uploadedFiles := uploadedFiles, state := s1 }

/-! ## Example 2: `useRegularUploadExample` -/

/-- The callback `onProgress`. -/
def useRegularUploadExample.onProgress (fileId progress : JSVal) (prev : List JSObject) :
    List JSObject :=
  prev.map (fun file =>
    if strictEq (getProp file "id") fileId then setProp file "progress" progress else file)

/-- The callback `onStatusChange`. -/
def useRegularUploadExample.onStatusChange (fileId status : JSVal) (prev : List JSObject) :
    List JSObject :=
  prev.map (fun file =>
    if strictEq (getProp file "id") fileId then setProp file "status" status else file)

/-- The callback `onSuccess`. -/
def useRegularUploadExample.onSuccess (fileId : JSVal) (result : JSObject)
    (prev : List JSObject) : List JSObject :=
  prev.map (fun file =>
    if strictEq (getProp file "id") fileId then
      setProp
        (setProp (setProp file "status" (.str "success"))
          "onedrive_item_id" (getProp result "onedrive_item_id"))
        "permanent_file_id" (getProp result "fileId")
    else file)

/-- The callback `onError`. -/
def useRegularUploadExample.onError (fileId error : JSVal) (prev : List JSObject) :
    List JSObject :=
  prev.map (fun file =>
    if strictEq (getProp file "id") fileId then
      setProp (setProp file "status" (.str "error")) "error" error
    else file)

/-- Delivery of one callback to the hook. -/
def useRegularUploadExample.deliver : Callback → List JSObject → List JSObject
  | .onProgress fileId progress => useRegularUploadExample.onProgress fileId progress
  | .onStatusChange fileId status => useRegularUploadExample.onStatusChange fileId status
  | .onSuccess fileId result => useRegularUploadExample.onSuccess fileId result
  | .onError fileId error => useRegularUploadExample.onError fileId error

/-! ## Example 6: `UploadManagerReactExample` -/

/-- The two state cells of the component. -/
structure ReactExampleState where
  files : List JSObject
  isUploading : Bool
  deriving DecidableEq

/-- The callback `onProgress`. -/
def UploadManagerReactExample.onProgress (fileId progress : JSVal) (st : ReactExampleState) :
    ReactExampleState :=
  { st with
    files := st.files.map (fun f =>
      if strictEq (getProp f "id") fileId then setProp f "progress" progress else f) }

/-- The callback `onStatusChange`: the first updater writes the status, the second updater
receives the list produced by the first, computes `uploading` and stores it in
`isUploading`, returning the list as it is. -/
def UploadManagerReactExample.onStatusChange (fileId status : JSVal) (st : ReactExampleState) :
    ReactExampleState :=
  let current := st.files.map (fun f =>
    if strictEq (getProp f "id") fileId then setProp f "status" status else f)
  let uploading := current.any (fun f =>
    strictEq (getProp f "status") (.str "queueing")
      || strictEq (getProp f "status") (.str "carregando")
      || strictEq (getProp f "status") (.str "finalizando"))
  { files := current, isUploading := uploading }

/-- The callback `onSuccess`: the payload object is stored under `result`. -/
def UploadManagerReactExample.onSuccess (fileId : JSVal) (result : JSObject)
    (st : ReactExampleState) : ReactExampleState :=
  { st with
    files := st.files.map (fun f =>
      if strictEq (getProp f "id") fileId then
        setProp (setProp f "status" (.str "success")) "result" (.obj result)
      else f) }

/-- The callback `onError`. -/
def UploadManagerReactExample.onError (fileId error : JSVal) (st : ReactExampleState) :
    ReactExampleState :=
  { st with
    files := st.files.map (fun f =>
      if strictEq (getProp f "id") fileId then
        setProp (setProp f "status" (.str "error")) "error" error
      else f) }

/-- Delivery of one callback to the component. -/
def UploadManagerReactExample.deliver : Callback → ReactExampleState → ReactExampleState
  | .onProgress fileId progress => UploadManagerReactExample.onProgress fileId progress
  | .onStatusChange fileId status => UploadManagerReactExample.onStatusChange fileId status
  | .onSuccess fileId result => UploadManagerReactExample.onSuccess fileId result
  | .onError fileId error => UploadManagerReactExample.onError fileId error

/-! ## Example 3: `uploadSingleFileExample` -/

/-- The options object passed to `uploadManager.uploadSingleFile`. The property reads on
`options` happen inside the `try` block and throw when `options` is `null`. -/
def uploadSingleFileExample.managerOptions (options : JSVal) : Except JSVal JSVal := do
  let customFileId ← getMember options "customFileId"
  let budgetCategory ← getMember options "budgetCategory"
  let orderId ← getMember options "orderId"
  pure (.obj [("fileId", jsOr customFileId .undefined),
    ("budgetCategory", jsOr budgetCategory .null),
    ("orderId", orderId)])

/-- The function `uploadSingleFileExample(file, componentId, options = {})`: the settled
outcome of the returned promise and the manager state afterwards. The `catch` block logs
the error and throws it again. -/
def uploadSingleFileExample {σ : Type} (uploadManager : UploadManager σ)
    (file componentId optionsArg : JSVal) (s : σ) : Except JSVal JSVal × σ :=
  let options := if optionsArg = .undefined then .obj [] else optionsArg
  match uploadSingleFileExample.managerOptions options with
  | .error error => (.error error, s)
  | .ok managerOptions =>
    match uploadManager.uploadSingleFile file componentId managerOptions s with
    | (.ok result, s1) => (.ok result, s1)
    | (.error error, s1) => (.error error, s1)

/-! ## Example 5: `BulkFileOperationsExample` -/

/-- An instance of the class: its only field is `uploadManager`. -/
structure BulkFileOperationsExample (σ : Type) where
  uploadManager : UploadManager σ

/-- The constructor `constructor(mode = "budget")`; the two factory results are parameters. -/
def BulkFileOperationsExample.constructor {σ : Type}
    (createBudgetUploadManager createRegularUploadManager : UploadManager σ)
    (modeArg : JSVal) : BulkFileOperationsExample σ :=
  let mode := if modeArg = .undefined then .str "budget" else modeArg
  { uploadManager :=
      if strictEq mode (.str "budget") then createBudgetUploadManager
      else createRegularUploadManager }

/-- The three arguments of one `downloadFile` or `removeFile` call. -/
structure ManagerCall where
  itemId : JSVal
  fileName : JSVal
  isStaged : JSVal
  deriving DecidableEq

/-- The arguments built by the arrow function inside `files.map`. -/
def BulkFileOperationsExample.callFor (file : JSObject) : ManagerCall :=
  { itemId := getProp file "onedrive_item_id"
    fileName := getProp file "name"
    isStaged := jsOr (getProp file "isStaged") (.bool true) }

/-- The expression `files.map(file => op(...))`: the operation is called for each file in
order; the result pairs each call with the settled outcome of its promise. -/
def BulkFileOperationsExample.dispatch {σ : Type}
    (op : JSVal → JSVal → JSVal → σ → Except JSVal Unit × σ) :
    List JSObject → σ → List (ManagerCall × Except JSVal Unit) × σ
  | [], s => ([], s)
  | file :: rest, s =>
    let call := BulkFileOperationsExample.callFor file
    let r := op call.itemId call.fileName call.isStaged s
    let rs := BulkFileOperationsExample.dispatch op rest r.2
    ((call, r.1) :: rs.1, rs.2)

/-- One entry of the array produced by `Promise.allSettled`. -/
inductive SettledResult where
  | fulfilled
  | rejected (reason : JSVal)
  deriving DecidableEq

/-- The combinator `Promise.allSettled`: resolves with one entry per input promise. -/
def Promise.allSettled (promises : List (Except JSVal Unit)) :
    Except JSVal (List SettledResult) :=
  .ok (promises.map (fun p =>
    match p with
    | .ok _ => SettledResult.fulfilled
    | .error reason => SettledResult.rejected reason))

/-- What a bulk method did: the manager calls in order, the console lines (first argument
of each `console.log` or `console.error`), how the returned promise settles, and the manager
state. -/
structure BulkRun (σ : Type) where
  calls : List ManagerCall
  console : List String
  outcome : Except JSVal Unit
  state : σ

/-- The method `downloadMultipleFiles(files)`. -/
def BulkFileOperationsExample.downloadMultipleFiles {σ : Type}
    (self : BulkFileOperationsExample σ) (files : List JSObject) (s : σ) : BulkRun σ :=
  let downloadPromises := BulkFileOperationsExample.dispatch self.uploadManager.downloadFile files s
  match Promise.allSettled (downloadPromises.1.map (fun p => p.2)) with
  | .ok _ =>
    { calls := downloadPromises.1.map (fun p => p.1)
      console := ["Bulk download completed"]
      outcome := .ok ()
      state := downloadPromises.2 }
  | .error _ =>
    { calls := downloadPromises.1.map (fun p => p.1)
      console := ["Bulk download failed:"]
      outcome := .ok ()
      state := downloadPromises.2 }

/-- The method `removeMultipleFiles(files)`. -/
def BulkFileOperationsExample.removeMultipleFiles {σ : Type}
    (self : BulkFileOperationsExample σ) (files : List JSObject) (s : σ) : BulkRun σ :=
  let removalPromises := BulkFileOperationsExample.dispatch self.uploadManager.removeFile files s
  match Promise.allSettled (removalPromises.1.map (fun p => p.2)) with
  | .ok _ =>
    { calls := removalPromises.1.map (fun p => p.1)
      console := ["Bulk removal completed"]
      outcome := .ok ()
      state := removalPromises.2 }
  | .error _ =>
    { calls := removalPromises.1.map (fun p => p.1)
      console := ["Bulk removal failed:"]
      outcome := .ok ()
      state := removalPromises.2 }

/-! ## Example 7: `handleUploadErrorsExample` -/

/-- The callback `onError` of `handleUploadErrorsExample`, for an error string: the list of
messages passed to `toast.error` during the call. -/
def handleUploadErrorsExample.onError (_fileId : JSVal) (error : String) : List String :=
  if includes error "OneDrive" then
    ["Erro de conexão com OneDrive. Tente novamente."]
  else if includes error "sessão" then
    ["Erro ao criar sessão de upload. Verifique sua conexão."]
  else if includes error "rede" then
    ["Erro de rede. Verifique sua conexão de internet."]
  else
    ["Erro no upload: " ++ error]

/-! ## Example 8: `throttle` -/

/-- A pending host timer created by `setTimeout`: its id, the time from which it may run,
and the arguments captured by the closure `later`. -/
structure Timer (α : Type) where
  id : Nat
  due : Nat
  args : α

/-- The state of one function returned by `throttle`, together with the host timer table
and the record of the calls made to `func` (time and arguments, oldest first). -/
structure ThrottleState (α : Type) where
  timeout : Option Nat
  timers : List (Timer α)
  nextId : Nat
  invoked : List (Nat × α)

/-- The state right after `throttle(func, wait)` returns: `timeout` is `undefined`. -/
def throttle.init (α : Type) : ThrottleState α :=
  { timeout := none, timers := [], nextId := 1, invoked := [] }

/-- The host function `clearTimeout(id)`: removes the pending timer with that id, if any. -/
def clearTimeout {α : Type} (id : Option Nat) (timers : List (Timer α)) : List (Timer α) :=
  timers.filter (fun t => decide (some t.id ≠ id))

/-- The returned function `executedFunction(...args)` called at time `now`: clears the
pending timer and schedules `later` to run `wait` ms from now. -/
def throttle.executedFunction {α : Type} (wait now : Nat) (args : α) (st : ThrottleState α) :
    ThrottleState α :=
  { timeout := some st.nextId
    timers := clearTimeout st.timeout st.timers ++ [{ id := st.nextId, due := now + wait, args := args }]
    nextId := st.nextId + 1
    invoked := st.invoked }

/-- The closure `later` running at time `now`: `clearTimeout(timeout)` and then
`func(...args)`. -/
def throttle.later {α : Type} (now : Nat) (args : α) (st : ThrottleState α) : ThrottleState α :=
  { st with
    timers := clearTimeout st.timeout st.timers
    invoked := st.invoked ++ [(now, args)] }

/-- One timer task of the host event loop at time `now`: the first pending timer that is due
is removed from the table and its callback runs; nothing happens when none is due. -/
def throttle.timerTask {α : Type} (now : Nat) (st : ThrottleState α) : ThrottleState α :=
  match st.timers.find? (fun t => decide (t.due ≤ now)) with
  | none => st
  | some t =>
    throttle.later now t.args
      { st with timers := st.timers.filter (fun u => decide (u.id ≠ t.id)) }

/-- What can happen to a throttled function: a call with arguments, or the host giving
pending timers a chance to run; both carry the time in ms at which they happen. -/
inductive ThrottleEvent (α : Type) where
  | call (time : Nat) (args : α)
  | timerTask (time : Nat)

/-- The time stamp of an event. -/
def ThrottleEvent.time {α : Type} : ThrottleEvent α → Nat
  | .call time _ => time
  | .timerTask time => time

/-- One event applied to the state. -/
def throttle.step {α : Type} (wait : Nat) : ThrottleEvent α → ThrottleState α → ThrottleState α
  | .call time args, st => throttle.executedFunction wait time args st
  | .timerTask time, st => throttle.timerTask time st

/-- A sequence of events applied in order. -/
def throttle.run {α : Type} (wait : Nat) : List (ThrottleEvent α) → ThrottleState α → ThrottleState α
  | [], st => st
  | e :: rest, st => throttle.run wait rest (throttle.step wait e st)

/-- The times at which `func` was invoked when the events happen to a fresh throttled
function, oldest first. -/
def throttle.invocationTimes {α : Type} (wait : Nat) (events : List (ThrottleEvent α)) : List Nat :=
  (throttle.run wait events (throttle.init α)).invoked.map (fun p => p.1)

/-- The progress callback of `createCustomUploadManager`: `throttle(func, 100)`; the
arguments of `func` are the file id and the percentage. -/
def createCustomUploadManager.onProgress (events : List (ThrottleEvent (JSVal × JSVal))) :
    List Nat :=
  throttle.invocationTimes 100 events

/-! ## Specification predicates -/

/-- The frame condition of a callback carrying `fileId` that takes the list `prev` to
`next`: same length, same ids in the same order, every entry whose id is not strictly equal
to `fileId` is unchanged at its position, and when no entry has that id the list is
unchanged. -/
def CorrelatedById (fileId : JSVal) (prev next : List JSObject) : Prop :=
  next.length = prev.length ∧
  next.map (fun f => getProp f "id") = prev.map (fun f => getProp f "id") ∧
  (∀ (i : Nat) (f : JSObject), prev[i]? = some f →
    strictEq (getProp f "id") fileId = false → next[i]? = some f) ∧
  ((∀ f ∈ prev, strictEq (getProp f "id") fileId = false) → next = prev)

/-- A status of a transfer still under way: one of the tokens `queueing`, `carregando`,
`finalizando`. -/
def InFlightStatus (status : JSVal) : Prop :=
  status = .str "queueing" ∨ status = .str "carregando" ∨ status = .str "finalizando"

/-- A status of a finished transfer: `success` or `error`. -/
def TerminalStatus (status : JSVal) : Prop :=
  status = .str "success" ∨ status = .str "error"

instance (status : JSVal) : Decidable (InFlightStatus status) := by
  unfold InFlightStatus
  infer_instance

instance (status : JSVal) : Decidable (TerminalStatus status) := by
  unfold TerminalStatus
  infer_instance

/-- Modelled from the spec: the upload manager library is not among the sources. This
manager resolves every operation and keeps no state, which is what the specification
prescribes for `removeFile` and `downloadFile` on a falsy identifier (a no-op, not an
error); `uploadSingleFile` resolves with a payload holding a remote item id. -/
def resolvingManager : UploadManager Unit :=
  { uploadSingleFile := fun _ _ _ s => (.ok (.obj [("onedrive_item_id", .str "item-1")]), s)
    downloadFile := fun _ _ _ s => (.ok (), s)
    removeFile := fun _ _ _ s => (.ok (), s) }

/-- A manager every operation of which rejects with the message it is given at
construction; its state counts the calls received. -/
def rejectingManager (message : String) : UploadManager Nat :=
  { uploadSingleFile := fun _ _ _ n => (.error (.str message), n + 1)
    downloadFile := fun _ _ _ n => (.error (.str message), n + 1)
    removeFile := fun _ _ _ n => (.error (.str message), n + 1) }

/-- A file entry as created on selection: queued, no progress, no remote id, no error. -/
def queuedEntry (id name : String) : JSObject :=
  [("id", .str id), ("name", .str name), ("status", .str "queueing"), ("progress", .num 0)]

/-- The task invariant on one entry: `onedrive_item_id` is set exactly when the status is
`success`, and `error` is set exactly when the status is `error`. A property is set when
reading it does not give `undefined`. -/
def TaskInvariant (f : JSObject) : Prop :=
  (getProp f "onedrive_item_id" ≠ .undefined ↔ getProp f "status" = .str "success") ∧
  (getProp f "error" ≠ .undefined ↔ getProp f "status" = .str "error")

instance (f : JSObject) : Decidable (TaskInvariant f) := by
  unfold TaskInvariant
  infer_instance

/-- An entry in its initial condition: status `queueing`, no `onedrive_item_id`, no
`error`. -/
def FreshEntry (f : JSObject) : Prop :=
  getProp f "status" = .str "queueing" ∧
  getProp f "onedrive_item_id" = .undefined ∧
  getProp f "error" = .undefined

instance (f : JSObject) : Decidable (FreshEntry f) := by
  unfold FreshEntry
  infer_instance

/-- The state updates of the hook `useBudgetUploadExample`: every call site of
`setUploadedFiles`. These are the four callbacks and the filter applied by `handleRemoveFile`
once the awaited `removeFile` has resolved. The setter is not returned by the hook. -/
inductive StateUpdate where
  | callback (cb : Callback)
  | removed (oneDriveItemId : JSVal)

/-- The initial value of `uploadedFiles`: `useState([])`. -/
def useBudgetUploadExample.initialFiles : List JSObject := []

/-- One state update applied to `uploadedFiles`. -/
def useBudgetUploadExample.update : StateUpdate → List JSObject → List JSObject
  | .callback cb, prev => useBudgetUploadExample.deliver cb prev
  | .removed oneDriveItemId, prev =>
    prev.filter (fun file => !strictEq (getProp file "onedrive_item_id") oneDriveItemId)

/-- The list `uploadedFiles` held by the hook after a sequence of state updates, oldest
first, starting from the initial value. -/
def useBudgetUploadExample.uploadedFilesAfter (updates : List StateUpdate) : List JSObject :=
  updates.foldl (fun files u => useBudgetUploadExample.update u files)
    useBudgetUploadExample.initialFiles

/-- The condition on a callback and an entry it addresses under which the update made by
`useBudgetUploadExample` keeps the task invariant of that entry: progress always does; a
status change does when it stays on the same side of `success` and of `error` as the current
status; a success does when its payload has `onedrive_item_id` set and the entry is not in
`error`; an error does when it is set and the entry is not in `success`. -/
def keepsTaskInvariant (f : JSObject) : Callback → Prop
  | .onProgress _ _ => True
  | .onStatusChange _ status =>
    (getProp f "status" = .str "success" ↔ status = .str "success") ∧
    (getProp f "status" = .str "error" ↔ status = .str "error")
  | .onSuccess _ result =>
    getProp result "onedrive_item_id" ≠ .undefined ∧ getProp f "status" ≠ .str "error"
  | .onError _ error =>
    error ≠ .undefined ∧ getProp f "status" ≠ .str "success"

/-- A manager that behaves as `m` and also records, in its state, every `downloadFile` and
`removeFile` call it receives: the name of the operation and the three arguments, oldest
first. -/
def recordingManager {σ : Type} (m : UploadManager σ) :
    UploadManager (σ × List (String × ManagerCall)) :=
  { uploadSingleFile := fun file componentId options st =>
      ((m.uploadSingleFile file componentId options st.1).1,
        ((m.uploadSingleFile file componentId options st.1).2, st.2))
    downloadFile := fun itemId fileName isStaged st =>
      ((m.downloadFile itemId fileName isStaged st.1).1,
        ((m.downloadFile itemId fileName isStaged st.1).2,
          st.2 ++ [("downloadFile", ManagerCall.mk itemId fileName isStaged)]))
    removeFile := fun itemId fileName isStaged st =>
      ((m.removeFile itemId fileName isStaged st.1).1,
        ((m.removeFile itemId fileName isStaged st.1).2,
          st.2 ++ [("removeFile", ManagerCall.mk itemId fileName isStaged)])) }

/-- Three files for the bulk operations: one staged, one explicitly not staged, one whose
`isStaged` is a non-empty string. -/
def sampleBulkFiles : List JSObject :=
  [[("onedrive_item_id", .str "item-1"), ("name", .str "a.xlsx"), ("isStaged", .bool true)],
   [("onedrive_item_id", .str "item-2"), ("name", .str "b.pdf"), ("isStaged", .bool false)],
   [("onedrive_item_id", .str "item-3"), ("name", .str "c.png"), ("isStaged", .str "staged")]]

/-- Two queued entries, as `handleFileSelect` of the React example would create them. -/
def sampleFiles : List JSObject :=
  [queuedEntry "f1" "a.xlsx", queuedEntry "f2" "b.pdf"]

/-- A success payload holding a remote item id and a download link. -/
def samplePayload : JSObject :=
  [("onedrive_item_id", .str "item-1"), ("onedrive_download_url", .str "https://example/1")]

/-- A callback sequence as a manager delivers it for two files: the first goes through the
statuses and succeeds, the second fails. -/
def sampleCallbacks : List Callback :=
  [.onStatusChange (.str "f1") (.str "carregando"),
   .onProgress (.str "f1") (.num 40),
   .onStatusChange (.str "f2") (.str "carregando"),
   .onStatusChange (.str "f1") (.str "finalizando"),
   .onSuccess (.str "f1") samplePayload,
   .onProgress (.str "f1") (.num 100),
   .onError (.str "f2") (.str "Erro de rede")]

/-- A history of the hook: the sample callbacks, then the filter of a resolved removal with
an `undefined` identifier, then a late status change. -/
def sampleUpdates : List StateUpdate :=
  sampleCallbacks.map StateUpdate.callback ++
    [.removed .undefined, .callback (.onStatusChange (.str "f1") (.str "success"))]

/-- The invariant of the throttle state at time `now`: every pending timer is the one
recorded in `timeout` and is due no earlier than `wait` ms after each past invocation; past
invocations are not later than `now` and are pairwise at least `wait` ms apart. -/
def ThrottleInvariant {α : Type} (wait now : Nat) (st : ThrottleState α) : Prop :=
  (∀ t ∈ st.timers, st.timeout = some t.id ∧ ∀ p ∈ st.invoked, p.1 + wait ≤ t.due) ∧
  (∀ p ∈ st.invoked, p.1 ≤ now) ∧
  st.invoked.Pairwise (fun a b => a.1 + wait ≤ b.1)

/-- Progress reports arriving faster than every 100 ms, then a pause, then one more. -/
def sampleProgressEvents : List (ThrottleEvent (JSVal × JSVal)) :=
  [.call 0 (.str "f1", .num 10),
   .call 50 (.str "f1", .num 20),
   .timerTask 120,
   .timerTask 150,
   .call 160 (.str "f1", .num 30),
   .timerTask 300]

/-! ## Basic facts about objects and strict equality -/

theorem getProp_setProp_same (o : JSObject) (k : String) (v : JSVal) :
    getProp (setProp o k v) k = v := by
  induction o with
  | nil => simp [setProp, getProp]
  | cons p rest ih =>
    obtain ⟨k2, v2⟩ := p
    by_cases h : k2 = k
    · simp [setProp, getProp, h]
    · simp [setProp, getProp, h, ih]

theorem getProp_setProp_ne (o : JSObject) (k k2 : String) (v : JSVal) (hk : k ≠ k2) :
    getProp (setProp o k v) k2 = getProp o k2 := by
  induction o with
  | nil => simp [setProp, getProp, hk]
  | cons p rest ih =>
    obtain ⟨k3, v3⟩ := p
    by_cases h : k3 = k
    · subst h
      simp [setProp, getProp, hk]
    · by_cases h2 : k3 = k2
      · subst h2
        simp [setProp, getProp, h]
      · simp [setProp, getProp, h, h2, ih]

theorem strictEq_eq_true_iff (a b : JSVal) : strictEq a b = true ↔ a ≠ .nan ∧ a = b := by
  unfold strictEq
  by_cases h : a = .nan
  · simp [h]
  · simp [h]

theorem strictEq_str_iff (a : JSVal) (s : String) : strictEq a (.str s) = true ↔ a = .str s := by
  rw [strictEq_eq_true_iff]
  constructor
  · exact fun h => h.2
  · intro h
    subst h
    exact ⟨fun e => JSVal.noConfusion e, rfl⟩

/-- A map that rewrites exactly the entries whose id is `fileId`, by an update that keeps
the id, satisfies the frame condition. -/
theorem correlated_of_map (fileId : JSVal) (upd : JSObject → JSObject)
    (hid : ∀ f, getProp (upd f) "id" = getProp f "id") (prev : List JSObject) :
    CorrelatedById fileId prev
      (prev.map (fun f => if strictEq (getProp f "id") fileId then upd f else f)) := by
  refine ⟨by simp, ?_, ?_, ?_⟩
  · rw [List.map_map]
    apply List.map_congr_left
    intro f _
    by_cases h : strictEq (getProp f "id") fileId = true
    · simp [h, hid]
    · simp [h]
  · intro i f hf hne
    simp [List.getElem?_map, hf, hne]
  · intro hall
    conv_rhs => rw [← List.map_id prev]
    apply List.map_congr_left
    intro f hf
    simp [hall f hf]

/-! ## C1: callbacks are correlated by file id -/

/-- C1. For every file list and every callback (progress, status change, success, error)
carrying a file id, the list kept by `useBudgetUploadExample`, by `useRegularUploadExample`
and by `UploadManagerReactExample` after the callback has the same length and the same order
of ids, every entry whose id differs from the file id is unchanged, and if no entry has that
id the list is unchanged. -/
theorem callbacks_correlated_by_file_id (cb : Callback) (prev : List JSObject)
    (isUploading : Bool) :
    CorrelatedById cb.fileId prev (useBudgetUploadExample.deliver cb prev) ∧
    CorrelatedById cb.fileId prev (useRegularUploadExample.deliver cb prev) ∧
    CorrelatedById cb.fileId prev
      (UploadManagerReactExample.deliver cb { files := prev, isUploading := isUploading }).files := by
  cases cb with
  | onProgress fileId progress =>
    have h := correlated_of_map fileId (fun f => setProp f "progress" progress)
      (fun f => getProp_setProp_ne f _ _ _ (by decide)) prev
    exact ⟨h, h, h⟩
  | onStatusChange fileId status =>
    have h := correlated_of_map fileId (fun f => setProp f "status" status)
      (fun f => getProp_setProp_ne f _ _ _ (by decide)) prev
    exact ⟨h, h, h⟩
  | onSuccess fileId result =>
    refine ⟨?_, ?_, ?_⟩
    · exact correlated_of_map fileId
        (fun f => setProp (setProp (setProp f "status" (.str "success"))
          "onedrive_item_id" (getProp result "onedrive_item_id"))
          "download_url" (getProp result "onedrive_download_url"))
        (fun f => by
          rw [getProp_setProp_ne _ _ _ _ (by decide), getProp_setProp_ne _ _ _ _ (by decide),
            getProp_setProp_ne _ _ _ _ (by decide)]) prev
    · exact correlated_of_map fileId
        (fun f => setProp (setProp (setProp f "status" (.str "success"))
          "onedrive_item_id" (getProp result "onedrive_item_id"))
          "permanent_file_id" (getProp result "fileId"))
        (fun f => by
          rw [getProp_setProp_ne _ _ _ _ (by decide), getProp_setProp_ne _ _ _ _ (by decide),
            getProp_setProp_ne _ _ _ _ (by decide)]) prev
    · exact correlated_of_map fileId
        (fun f => setProp (setProp f "status" (.str "success")) "result" (.obj result))
        (fun f => by
          rw [getProp_setProp_ne _ _ _ _ (by decide), getProp_setProp_ne _ _ _ _ (by decide)])
        prev
  | onError fileId error =>
    have h := correlated_of_map fileId
      (fun f => setProp (setProp f "status" (.str "error")) "error" error)
      (fun f => by
        rw [getProp_setProp_ne _ _ _ _ (by decide), getProp_setProp_ne _ _ _ _ (by decide)])
      prev
    exact ⟨h, h, h⟩

/-- A late error callback for an id that is not in the list leaves the list as it is. -/
theorem callbacks_correlated_by_file_id_witness :
    useBudgetUploadExample.deliver (.onError (.str "discarded") (.str "Erro de rede"))
      sampleFiles = sampleFiles :=
  (callbacks_correlated_by_file_id (.onError (.str "discarded") (.str "Erro de rede"))
    sampleFiles false).1.2.2.2 (by decide)

/-! ## C2: removal with a falsy identifier -/

/-- The list held by the hook is empty after every sequence of state updates: it starts
empty and is only ever mapped and filtered. -/
theorem uploadedFilesAfter_eq_nil (updates : List StateUpdate) :
    useBudgetUploadExample.uploadedFilesAfter updates = [] := by
  unfold useBudgetUploadExample.uploadedFilesAfter useBudgetUploadExample.initialFiles
  induction updates with
  | nil => rfl
  | cons u rest ih =>
    rw [List.foldl_cons]
    have h : useBudgetUploadExample.update u [] = [] := by
      cases u with
      | callback cb => cases cb <;> rfl
      | removed oneDriveItemId => rfl
    rw [h]
    exact ih

/-- When the manager is present and `removeFile` resolves, `handleRemoveFile` keeps exactly
the entries whose `onedrive_item_id` is not strictly equal to the identifier. -/
theorem handleRemoveFile_of_resolved {σ : Type} (m : UploadManager σ)
    (oneDriveItemId fileName : JSVal) (uploadedFiles : List JSObject) (s s1 : σ)
    (h : m.removeFile oneDriveItemId fileName (.bool true) s = (.ok (), s1)) :
    (useBudgetUploadExample.handleRemoveFile (some m) oneDriveItemId fileName uploadedFiles
      s).uploadedFiles =
      uploadedFiles.filter
        (fun file => !strictEq (getProp file "onedrive_item_id") oneDriveItemId) := by
  simp [useBudgetUploadExample.handleRemoveFile, h]

/-- On the empty list `handleRemoveFile` leaves the list empty, whatever the manager does. -/
theorem handleRemoveFile_nil {σ : Type} (ref : Option (UploadManager σ))
    (oneDriveItemId fileName : JSVal) (s : σ) :
    (useBudgetUploadExample.handleRemoveFile ref oneDriveItemId fileName [] s).uploadedFiles =
      [] := by
  unfold useBudgetUploadExample.handleRemoveFile
  cases ref with
  | none => rfl
  | some m =>
    simp only
    generalize m.removeFile oneDriveItemId fileName (.bool true) s = r
    obtain ⟨o, s1⟩ := r
    cases o <;> rfl

/-- C2. For every list `uploadedFiles` that `useBudgetUploadExample` can hold (the initial
list after any sequence of callbacks and resolved removals) and every falsy identifier,
`handleRemoveFile` leaves `uploadedFiles` equal to what it was before the call, whether the
manager reference is set or `null` and whether `removeFile` resolves or rejects. -/
theorem handleRemoveFile_falsy_leaves_uploadedFiles {σ : Type} (updates : List StateUpdate)
    (ref : Option (UploadManager σ)) (oneDriveItemId fileName : JSVal) (s : σ)
    (_hfalsy : oneDriveItemId.truthy = false) :
    (useBudgetUploadExample.handleRemoveFile ref oneDriveItemId fileName
      (useBudgetUploadExample.uploadedFilesAfter updates) s).uploadedFiles =
      useBudgetUploadExample.uploadedFilesAfter updates := by
  rw [uploadedFilesAfter_eq_nil]
  exact handleRemoveFile_nil ref oneDriveItemId fileName s

/-- After the sample history, removal with `undefined` through a resolving manager leaves
the list of the hook as it was. -/
theorem handleRemoveFile_falsy_leaves_uploadedFiles_witness :
    JSVal.undefined.truthy = false ∧
    (useBudgetUploadExample.handleRemoveFile (some resolvingManager) .undefined
      (.str "a.xlsx") (useBudgetUploadExample.uploadedFilesAfter sampleUpdates) ()).uploadedFiles =
      useBudgetUploadExample.uploadedFilesAfter sampleUpdates :=
  ⟨rfl, handleRemoveFile_falsy_leaves_uploadedFiles sampleUpdates (some resolvingManager)
    .undefined (.str "a.xlsx") () rfl⟩

/-! ## C3: `uploadSingleFileExample` is a transparent wrapper -/

/-- C3. For every file, component id and options for which the manager is called (with the
options object `managerOptions` built from `options`): if `uploadSingleFile` resolves with
outcome `r` the example resolves with exactly `r`, and if it rejects with error `e` the
example rejects with exactly `e`. -/
theorem uploadSingleFileExample_transparent {σ : Type} (uploadManager : UploadManager σ)
    (file componentId options managerOptions : JSVal) (s : σ)
    (hopts : uploadSingleFileExample.managerOptions
      (if options = .undefined then .obj [] else options) = .ok managerOptions) :
    (∀ (r : JSVal) (s1 : σ),
      uploadManager.uploadSingleFile file componentId managerOptions s = (.ok r, s1) →
      uploadSingleFileExample uploadManager file componentId options s = (.ok r, s1)) ∧
    (∀ (e : JSVal) (s1 : σ),
      uploadManager.uploadSingleFile file componentId managerOptions s = (.error e, s1) →
      uploadSingleFileExample uploadManager file componentId options s = (.error e, s1)) := by
  constructor
  · intro r s1 h
    simp only [uploadSingleFileExample, hopts, h]
  · intro e s1 h
    simp only [uploadSingleFileExample, hopts, h]

/-- The wrapper at a manager that rejects: the rejection reaches the caller unchanged. -/
theorem uploadSingleFileExample_transparent_witness :
    uploadSingleFileExample (rejectingManager "Erro de rede") (.str "file") (.str "component-id")
      (.obj [("orderId", .str "o-1")]) 0 = (.error (.str "Erro de rede"), 1) :=
  (uploadSingleFileExample_transparent (rejectingManager "Erro de rede") (.str "file")
    (.str "component-id") (.obj [("orderId", .str "o-1")])
    (.obj [("fileId", .undefined), ("budgetCategory", .null), ("orderId", .str "o-1")]) 0
    (by rfl)).2 (.str "Erro de rede") 1 (by rfl)

/-! ## C4: `isUploading` after a status change -/

theorem inFlight_test_iff (f : JSObject) :
    (strictEq (getProp f "status") (.str "queueing")
      || strictEq (getProp f "status") (.str "carregando")
      || strictEq (getProp f "status") (.str "finalizando")) = true ↔
    InFlightStatus (getProp f "status") := by
  simp only [Bool.or_eq_true, strictEq_str_iff, InFlightStatus, or_assoc]

theorem not_inFlight_of_terminal (v : JSVal) (h : TerminalStatus v) : ¬ InFlightStatus v := by
  rcases h with h | h <;> subst h <;> decide

/-- C4. After `onStatusChange(fileId, status)` in `UploadManagerReactExample`, the file list
is the previous one with the new status written to the entries whose id is `fileId`, and
`isUploading` is true if and only if some entry of that updated list has status `queueing`,
`carregando` or `finalizando`. Hence, when every status of the updated list is one of the
five tokens, `isUploading` is false exactly when all entries are `success` or `error`; and it
is false for the empty list. -/
theorem onStatusChange_isUploading_iff (fileId status : JSVal) (st : ReactExampleState) :
    (UploadManagerReactExample.onStatusChange fileId status st).files =
      st.files.map (fun f =>
        if strictEq (getProp f "id") fileId then setProp f "status" status else f) ∧
    ((UploadManagerReactExample.onStatusChange fileId status st).isUploading = true ↔
      ∃ f ∈ (UploadManagerReactExample.onStatusChange fileId status st).files,
        InFlightStatus (getProp f "status")) ∧
    ((∀ f ∈ (UploadManagerReactExample.onStatusChange fileId status st).files,
        InFlightStatus (getProp f "status") ∨ TerminalStatus (getProp f "status")) →
      ((UploadManagerReactExample.onStatusChange fileId status st).isUploading = false ↔
        ∀ f ∈ (UploadManagerReactExample.onStatusChange fileId status st).files,
          TerminalStatus (getProp f "status"))) ∧
    (st.files = [] →
      (UploadManagerReactExample.onStatusChange fileId status st).isUploading = false) := by
  have key : ((UploadManagerReactExample.onStatusChange fileId status st).isUploading = true ↔
      ∃ f ∈ (UploadManagerReactExample.onStatusChange fileId status st).files,
        InFlightStatus (getProp f "status")) := by
    simp only [UploadManagerReactExample.onStatusChange, List.any_eq_true, inFlight_test_iff]
  refine ⟨rfl, key, ?_, ?_⟩
  · intro hall
    rw [← Bool.not_eq_true, key]
    constructor
    · intro hno f hf
      rcases hall f hf with h | h
      · exact absurd ⟨f, hf, h⟩ hno
      · exact h
    · rintro hterm ⟨f, hf, h⟩
      exact not_inFlight_of_terminal _ (hterm f hf) h
  · intro hnil
    simp [UploadManagerReactExample.onStatusChange, hnil]

/-- A status change that finishes the last transfer under way switches `isUploading` off. -/
theorem onStatusChange_isUploading_iff_witness :
    (UploadManagerReactExample.onStatusChange (.str "f2") (.str "success")
      { files := [setProp (queuedEntry "f1" "a.xlsx") "status" (.str "error"),
                  setProp (queuedEntry "f2" "b.pdf") "status" (.str "finalizando")],
        isUploading := true }).isUploading = false :=
  ((onStatusChange_isUploading_iff (.str "f2") (.str "success")
    { files := [setProp (queuedEntry "f1" "a.xlsx") "status" (.str "error"),
                setProp (queuedEntry "f2" "b.pdf") "status" (.str "finalizando")],
      isUploading := true }).2.2.1 (by decide)).2 (by decide)

/-! ## C7: classification of error strings -/

/-- The function `includes` decides whether the search string is a contiguous part of the
string. -/
theorem includes_iff_infix (s t : String) : includes s t = true ↔ t.data <:+: s.data := by
  simp only [includes, List.any_eq_true, List.mem_tails, List.isPrefixOf_iff_prefix]
  rw [List.infix_iff_prefix_suffix]
  constructor
  · rintro ⟨u, hu, ht⟩
    exact ⟨u, ht, hu⟩
  · rintro ⟨u, ht, hu⟩
    exact ⟨u, hu, ht⟩

theorem generic_message_ne (error other : String) (h : other.data.get? 5 ≠ some 'n') :
    "Erro no upload: " ++ error ≠ other := by
  intro e
  apply h
  rw [← e]
  simp [String.data_append]

/-- C7. For every error string the `onError` handler of `handleUploadErrorsExample` emits
exactly one toast, chosen by first match: the OneDrive message if and only if the string
contains `OneDrive`; otherwise the session message if and only if it contains `sessão`;
otherwise the network message if and only if it contains `rede`; otherwise the generic
message `Erro no upload: ` followed by the error string. -/
theorem onError_classifies_by_first_match (fileId : JSVal) (error : String) :
    (handleUploadErrorsExample.onError fileId error).length = 1 ∧
    (handleUploadErrorsExample.onError fileId error =
        ["Erro de conexão com OneDrive. Tente novamente."] ↔
      includes error "OneDrive" = true) ∧
    (includes error "OneDrive" = false →
      (handleUploadErrorsExample.onError fileId error =
          ["Erro ao criar sessão de upload. Verifique sua conexão."] ↔
        includes error "sessão" = true)) ∧
    (includes error "OneDrive" = false → includes error "sessão" = false →
      (handleUploadErrorsExample.onError fileId error =
          ["Erro de rede. Verifique sua conexão de internet."] ↔
        includes error "rede" = true)) ∧
    (includes error "OneDrive" = false → includes error "sessão" = false →
      includes error "rede" = false →
      handleUploadErrorsExample.onError fileId error = ["Erro no upload: " ++ error]) := by
  have g1 := generic_message_ne error "Erro de conexão com OneDrive. Tente novamente." (by decide)
  have g2 := generic_message_ne error "Erro ao criar sessão de upload. Verifique sua conexão."
    (by decide)
  have g3 := generic_message_ne error "Erro de rede. Verifique sua conexão de internet."
    (by decide)
  unfold handleUploadErrorsExample.onError
  cases h1 : includes error "OneDrive" <;> cases h2 : includes error "sessão" <;>
    cases h3 : includes error "rede" <;> simp [g1, g2, g3]

/-- The handler on a session error that also mentions the network: the session message
wins. -/
theorem onError_classifies_by_first_match_witness :
    handleUploadErrorsExample.onError (.str "f1") "Falha de rede ao criar sessão" =
      ["Erro ao criar sessão de upload. Verifique sua conexão."] :=
  ((onError_classifies_by_first_match (.str "f1") "Falha de rede ao criar sessão").2.2.1
    (by decide)).2 (by decide)

/-! ## C8 and C9: bulk operations -/

theorem dispatch_calls {σ : Type} (op : JSVal → JSVal → JSVal → σ → Except JSVal Unit × σ)
    (files : List JSObject) (s : σ) :
    (BulkFileOperationsExample.dispatch op files s).1.map (fun p => p.1) =
      files.map BulkFileOperationsExample.callFor := by
  induction files generalizing s with
  | nil => rfl
  | cons file rest ih =>
    simp only [BulkFileOperationsExample.dispatch, List.map_cons, ih]

/-- The manager state after `files.map(file => op(...))` is the one obtained by applying the
operation to each file in turn, first to last. -/
theorem dispatch_state {σ : Type} (op : JSVal → JSVal → JSVal → σ → Except JSVal Unit × σ)
    (files : List JSObject) (s : σ) :
    (BulkFileOperationsExample.dispatch op files s).2 =
      files.foldl (fun st file =>
        (op (BulkFileOperationsExample.callFor file).itemId
          (BulkFileOperationsExample.callFor file).fileName
          (BulkFileOperationsExample.callFor file).isStaged st).2) s := by
  induction files generalizing s with
  | nil => rfl
  | cons file rest ih =>
    simp only [BulkFileOperationsExample.dispatch, List.foldl_cons, ih]

theorem downloadMultipleFiles_calls {σ : Type} (self : BulkFileOperationsExample σ)
    (files : List JSObject) (s : σ) :
    (self.downloadMultipleFiles files s).calls =
      files.map BulkFileOperationsExample.callFor := by
  simp only [BulkFileOperationsExample.downloadMultipleFiles, Promise.allSettled, dispatch_calls]

theorem removeMultipleFiles_calls {σ : Type} (self : BulkFileOperationsExample σ)
    (files : List JSObject) (s : σ) :
    (self.removeMultipleFiles files s).calls =
      files.map BulkFileOperationsExample.callFor := by
  simp only [BulkFileOperationsExample.removeMultipleFiles, Promise.allSettled, dispatch_calls]

theorem downloadMultipleFiles_state {σ : Type} (self : BulkFileOperationsExample σ)
    (files : List JSObject) (s : σ) :
    (self.downloadMultipleFiles files s).state =
      files.foldl (fun st file =>
        (self.uploadManager.downloadFile (BulkFileOperationsExample.callFor file).itemId
          (BulkFileOperationsExample.callFor file).fileName
          (BulkFileOperationsExample.callFor file).isStaged st).2) s := by
  simp only [BulkFileOperationsExample.downloadMultipleFiles, Promise.allSettled, dispatch_state]

theorem removeMultipleFiles_state {σ : Type} (self : BulkFileOperationsExample σ)
    (files : List JSObject) (s : σ) :
    (self.removeMultipleFiles files s).state =
      files.foldl (fun st file =>
        (self.uploadManager.removeFile (BulkFileOperationsExample.callFor file).itemId
          (BulkFileOperationsExample.callFor file).fileName
          (BulkFileOperationsExample.callFor file).isStaged st).2) s := by
  simp only [BulkFileOperationsExample.removeMultipleFiles, Promise.allSettled, dispatch_state]

/-- Folding a recording operation over the files appends one record per file, in order. -/
theorem recorded_foldl {σ : Type} (name : String)
    (op : JSVal → JSVal → JSVal → σ → Except JSVal Unit × σ)
    (files : List JSObject) (st : σ × List (String × ManagerCall)) :
    (files.foldl (fun (st : σ × List (String × ManagerCall)) file =>
        ((op (BulkFileOperationsExample.callFor file).itemId
            (BulkFileOperationsExample.callFor file).fileName
            (BulkFileOperationsExample.callFor file).isStaged st.1).2,
          st.2 ++ [(name, ManagerCall.mk (BulkFileOperationsExample.callFor file).itemId
            (BulkFileOperationsExample.callFor file).fileName
            (BulkFileOperationsExample.callFor file).isStaged)])) st).2 =
      st.2 ++ files.map (fun file => (name, BulkFileOperationsExample.callFor file)) := by
  induction files generalizing st with
  | nil => simp
  | cons file rest ih =>
    rw [List.foldl_cons, ih]
    simp [List.append_assoc]

theorem jsOr_true_truthy (v : JSVal) : (jsOr v (.bool true)).truthy = true := by
  unfold jsOr
  by_cases h : v.truthy = true
  · rw [if_pos h]
    exact h
  · rw [if_neg h]
    rfl

theorem jsOr_true_of_falsy (v : JSVal) (h : v.truthy = false) :
    jsOr v (.bool true) = .bool true := by
  unfold jsOr
  rw [if_neg (by rw [h]; exact Bool.false_ne_true)]

theorem jsOr_true_of_truthy (v : JSVal) (h : v.truthy = true) : jsOr v (.bool true) = v := by
  unfold jsOr
  rw [if_pos h]

theorem jsOr_true_of_bool (b : Bool) : jsOr (.bool b) (.bool true) = .bool true := by
  cases b <;> rfl

/-- C8, as amended. In `BulkFileOperationsExample`, for both construction modes and every
file list, the third argument of every `downloadFile` and `removeFile` call made by
`downloadMultipleFiles` and `removeMultipleFiles` is truthy and is never `false`. For each
file it is `true` when `isStaged` is falsy or absent (`false` included), and it is the value
of `isStaged` itself when that value is truthy; so it is `true` for every boolean
`isStaged`. -/
theorem bulk_third_argument_never_false {σ : Type}
    (createBudgetUploadManager createRegularUploadManager : UploadManager σ) (mode : JSVal)
    (files : List JSObject) (s : σ) :
    (∀ c ∈ ((BulkFileOperationsExample.constructor createBudgetUploadManager
          createRegularUploadManager mode).downloadMultipleFiles files s).calls ++
        ((BulkFileOperationsExample.constructor createBudgetUploadManager
          createRegularUploadManager mode).removeMultipleFiles files s).calls,
      c.isStaged.truthy = true ∧ c.isStaged ≠ .bool false) ∧
    (∀ (i : Nat) (file : JSObject), files[i]? = some file →
      ((getProp file "isStaged").truthy = false →
        (((BulkFileOperationsExample.constructor createBudgetUploadManager
          createRegularUploadManager mode).downloadMultipleFiles files s).calls[i]?).map ManagerCall.isStaged =
            some (.bool true) ∧
          (((BulkFileOperationsExample.constructor createBudgetUploadManager
          createRegularUploadManager mode).removeMultipleFiles files s).calls[i]?).map ManagerCall.isStaged =
            some (.bool true)) ∧
      ((getProp file "isStaged").truthy = true →
        (((BulkFileOperationsExample.constructor createBudgetUploadManager
          createRegularUploadManager mode).downloadMultipleFiles files s).calls[i]?).map ManagerCall.isStaged =
            some (getProp file "isStaged") ∧
          (((BulkFileOperationsExample.constructor createBudgetUploadManager
          createRegularUploadManager mode).removeMultipleFiles files s).calls[i]?).map ManagerCall.isStaged =
            some (getProp file "isStaged")) ∧
      ((∃ b, getProp file "isStaged" = .bool b) →
        (((BulkFileOperationsExample.constructor createBudgetUploadManager
          createRegularUploadManager mode).downloadMultipleFiles files s).calls[i]?).map ManagerCall.isStaged =
            some (.bool true) ∧
          (((BulkFileOperationsExample.constructor createBudgetUploadManager
          createRegularUploadManager mode).removeMultipleFiles files s).calls[i]?).map ManagerCall.isStaged =
            some (.bool true))) := by
  rw [downloadMultipleFiles_calls, removeMultipleFiles_calls]
  constructor
  · intro c hc
    have hc2 : c ∈ files.map BulkFileOperationsExample.callFor := by
      simpa using hc
    obtain ⟨file, _, rfl⟩ := List.mem_map.1 hc2
    have ht := jsOr_true_truthy (getProp file "isStaged")
    refine ⟨ht, ?_⟩
    intro hfalse
    simp only [BulkFileOperationsExample.callFor] at hfalse
    rw [hfalse] at ht
    simp [JSVal.truthy] at ht
  · intro i file hfile
    refine ⟨?_, ?_, ?_⟩
    · intro hflag
      simp [List.getElem?_map, hfile, BulkFileOperationsExample.callFor,
        jsOr_true_of_falsy _ hflag]
    · intro hflag
      simp [List.getElem?_map, hfile, BulkFileOperationsExample.callFor,
        jsOr_true_of_truthy _ hflag]
    · rintro ⟨b, hb⟩
      simp [List.getElem?_map, hfile, BulkFileOperationsExample.callFor, hb,
        jsOr_true_of_bool]

/-- A regular-mode instance downloading the sample file whose `isStaged` is `false`: the
manager is called with `true`. -/
theorem bulk_third_argument_never_false_witness :
    ((BulkFileOperationsExample.constructor resolvingManager resolvingManager
      (.str "regular")).downloadMultipleFiles sampleBulkFiles ()).calls[1]?.map
        ManagerCall.isStaged = some (.bool true) :=
  (((bulk_third_argument_never_false resolvingManager resolvingManager (.str "regular")
    sampleBulkFiles ()).2 1 _ rfl).1 rfl).1

/-- C8 as stated fails. For the file `{ onedrive_item_id: "item-3", name: "c.png",
isStaged: "staged" }` both `downloadMultipleFiles` and `removeMultipleFiles` pass the string
`"staged"` as third argument, which is not `true`. -/
theorem bulk_third_argument_not_true_for_truthy_string :
    ((BulkFileOperationsExample.constructor resolvingManager resolvingManager
      (.str "budget")).downloadMultipleFiles
        [[("onedrive_item_id", .str "item-3"), ("name", .str "c.png"),
          ("isStaged", .str "staged")]] ()).calls.map ManagerCall.isStaged =
      [.str "staged"] ∧
    ((BulkFileOperationsExample.constructor resolvingManager resolvingManager
      (.str "budget")).removeMultipleFiles
        [[("onedrive_item_id", .str "item-3"), ("name", .str "c.png"),
          ("isStaged", .str "staged")]] ()).calls.map ManagerCall.isStaged =
      [.str "staged"] ∧
    JSVal.str "staged" ≠ .bool true := by
  refine ⟨by decide, by decide, by decide⟩

/-- C9. For every manager (every way its per-file operations resolve or reject, all
rejecting included) and every file list, `downloadMultipleFiles` and `removeMultipleFiles`
apply the per-file operation of the manager exactly once per file in input order: the
manager state afterwards is the one reached by applying the operation to the files one after
the other, and a manager that records its calls has recorded exactly one call per file, in
input order, with the arguments built from that file. The bulk call resolves: the completion
line is logged and the `catch` branch is not taken. -/
theorem bulk_operations_isolate_failures {σ : Type} (self : BulkFileOperationsExample σ)
    (files : List JSObject) (s : σ) :
    ((self.downloadMultipleFiles files s).calls = files.map BulkFileOperationsExample.callFor ∧
      (self.downloadMultipleFiles files s).state =
        files.foldl (fun st file =>
          (self.uploadManager.downloadFile (BulkFileOperationsExample.callFor file).itemId
            (BulkFileOperationsExample.callFor file).fileName
            (BulkFileOperationsExample.callFor file).isStaged st).2) s ∧
      ((BulkFileOperationsExample.mk (recordingManager self.uploadManager)).downloadMultipleFiles
          files (s, [])).state.2 =
        files.map (fun file => ("downloadFile", BulkFileOperationsExample.callFor file)) ∧
      (self.downloadMultipleFiles files s).outcome = .ok () ∧
      (self.downloadMultipleFiles files s).console = ["Bulk download completed"]) ∧
    ((self.removeMultipleFiles files s).calls = files.map BulkFileOperationsExample.callFor ∧
      (self.removeMultipleFiles files s).state =
        files.foldl (fun st file =>
          (self.uploadManager.removeFile (BulkFileOperationsExample.callFor file).itemId
            (BulkFileOperationsExample.callFor file).fileName
            (BulkFileOperationsExample.callFor file).isStaged st).2) s ∧
      ((BulkFileOperationsExample.mk (recordingManager self.uploadManager)).removeMultipleFiles
          files (s, [])).state.2 =
        files.map (fun file => ("removeFile", BulkFileOperationsExample.callFor file)) ∧
      (self.removeMultipleFiles files s).outcome = .ok () ∧
      (self.removeMultipleFiles files s).console = ["Bulk removal completed"]) := by
  refine ⟨⟨downloadMultipleFiles_calls self files s, downloadMultipleFiles_state self files s,
    ?_, rfl, rfl⟩, ⟨removeMultipleFiles_calls self files s, removeMultipleFiles_state self files s,
    ?_, rfl, rfl⟩⟩
  · rw [downloadMultipleFiles_state]
    simp only [recordingManager]
    rw [recorded_foldl "downloadFile" self.uploadManager.downloadFile files (s, [])]
    simp
  · rw [removeMultipleFiles_state]
    simp only [recordingManager]
    rw [recorded_foldl "removeFile" self.uploadManager.removeFile files (s, [])]
    simp

/-- A manager that rejects every call and counts the calls it receives: after a bulk removal
of the three sample files it has been called three times, and the bulk call has resolved. -/
theorem bulk_operations_isolate_failures_witness :
    ((BulkFileOperationsExample.mk (rejectingManager "Erro de rede")).removeMultipleFiles
      sampleBulkFiles 0).state = 3 ∧
    ((BulkFileOperationsExample.mk (rejectingManager "Erro de rede")).removeMultipleFiles
      sampleBulkFiles 0).outcome = .ok () :=
  ⟨(bulk_operations_isolate_failures (BulkFileOperationsExample.mk
      (rejectingManager "Erro de rede")) sampleBulkFiles 0).2.2.1.trans (by rfl),
    (bulk_operations_isolate_failures (BulkFileOperationsExample.mk
      (rejectingManager "Erro de rede")) sampleBulkFiles 0).2.2.2.2.1⟩

/-! ## C5: the task invariant on the entries of `useBudgetUploadExample` -/

theorem getProp_setProp (o : JSObject) (k k2 : String) (v : JSVal) :
    getProp (setProp o k v) k2 = if k = k2 then v else getProp o k2 := by
  by_cases h : k = k2
  · subst h
    simp [getProp_setProp_same]
  · simp [h, getProp_setProp_ne _ _ _ _ h]

theorem taskInvariant_of_fresh (f : JSObject) (h : FreshEntry f) : TaskInvariant f := by
  obtain ⟨hs, hi, he⟩ := h
  unfold TaskInvariant
  rw [hs, hi, he]
  decide

/-- On any list whatever whose entries satisfy the task invariant, the invariant holds again
after a callback exactly when the callback keeps it on each entry it addresses (see
`keepsTaskInvariant`). -/
theorem taskInvariant_deliver_iff (files : List JSObject) (cb : Callback)
    (hinv : ∀ f ∈ files, TaskInvariant f) :
    (∀ f ∈ useBudgetUploadExample.deliver cb files, TaskInvariant f) ↔
      ∀ f ∈ files, strictEq (getProp f "id") cb.fileId = true → keepsTaskInvariant f cb := by
  have lift : ∀ (fileId : JSVal) (upd : JSObject → JSObject) (K : JSObject → Prop),
      (∀ f, TaskInvariant f → (TaskInvariant (upd f) ↔ K f)) →
      ((∀ f2 ∈ files.map (fun f => if strictEq (getProp f "id") fileId then upd f else f),
          TaskInvariant f2) ↔
        ∀ f ∈ files, strictEq (getProp f "id") fileId = true → K f) := by
    intro fileId upd K hK
    constructor
    · intro h f hf hm
      have := h _ (List.mem_map_of_mem _ hf)
      rw [if_pos hm] at this
      exact (hK f (hinv f hf)).1 this
    · intro h f2 hf2
      obtain ⟨f, hf, rfl⟩ := List.mem_map.1 hf2
      by_cases hm : strictEq (getProp f "id") fileId = true
      · rw [if_pos hm]
        exact (hK f (hinv f hf)).2 (h f hf hm)
      · rw [if_neg hm]
        exact hinv f hf
  cases cb with
  | onProgress fileId progress =>
    refine lift fileId (fun f => setProp f "progress" progress) (fun _ => True) ?_
    intro f hf
    unfold TaskInvariant at *
    simpa [getProp_setProp] using hf
  | onStatusChange fileId status =>
    refine lift fileId (fun f => setProp f "status" status)
      (fun f => keepsTaskInvariant f (.onStatusChange fileId status)) ?_
    intro f hf
    obtain ⟨h1, h2⟩ := hf
    unfold TaskInvariant keepsTaskInvariant
    simp only [getProp_setProp]
    simp [h1, h2]
  | onSuccess fileId result =>
    refine lift fileId
      (fun f => setProp (setProp (setProp f "status" (.str "success"))
        "onedrive_item_id" (getProp result "onedrive_item_id"))
        "download_url" (getProp result "onedrive_download_url"))
      (fun f => keepsTaskInvariant f (.onSuccess fileId result)) ?_
    intro f hf
    obtain ⟨_, h2⟩ := hf
    unfold TaskInvariant keepsTaskInvariant
    simp only [getProp_setProp]
    simp [h2]
  | onError fileId error =>
    refine lift fileId
      (fun f => setProp (setProp f "status" (.str "error")) "error" error)
      (fun f => keepsTaskInvariant f (.onError fileId error)) ?_
    intro f hf
    obtain ⟨h1, _⟩ := hf
    unfold TaskInvariant keepsTaskInvariant
    simp only [getProp_setProp]
    simp [h1]
    tauto

theorem run_nil_files (callbacks : List Callback) :
    useBudgetUploadExample.run callbacks [] = [] := by
  induction callbacks with
  | nil => rfl
  | cons cb rest ih =>
    have h : useBudgetUploadExample.deliver cb [] = [] := by cases cb <;> rfl
    rw [useBudgetUploadExample.run, h, ih]

/-- C5. The file entries kept by `useBudgetUploadExample` satisfy the task invariant:
starting from any list the hook can hold (the initial list after any sequence of callbacks
and resolved removals), whose entries all have status `queueing`, no `onedrive_item_id` and
no `error`, after every finite sequence of callbacks each entry has `onedrive_item_id` set
if and only if its status is `success`, and `error` set if and only if its status is
`error`. -/
theorem task_invariant_of_hook_entries (updates : List StateUpdate)
    (callbacks : List Callback) :
    (∀ f ∈ useBudgetUploadExample.uploadedFilesAfter updates, FreshEntry f) ∧
    ∀ f ∈ useBudgetUploadExample.run callbacks
        (useBudgetUploadExample.uploadedFilesAfter updates), TaskInvariant f := by
  rw [uploadedFilesAfter_eq_nil, run_nil_files]
  exact ⟨fun f hf => absurd hf (List.not_mem_nil f), fun f hf => absurd hf (List.not_mem_nil f)⟩

/-! ## C6: spacing of the invocations made by `throttle` -/

theorem throttleInvariant_init (α : Type) (wait : Nat) :
    ThrottleInvariant wait 0 (throttle.init α) := by
  refine ⟨?_, ?_, ?_⟩
  · intro t ht
    simp [throttle.init] at ht
  · intro p hp
    simp [throttle.init] at hp
  · simp [throttle.init]

/-- Under the invariant, clearing the timer recorded in `timeout` empties the timer table. -/
theorem clearTimeout_eq_nil {α : Type} (wait now : Nat) (st : ThrottleState α)
    (hinv : ThrottleInvariant wait now st) : clearTimeout st.timeout st.timers = [] := by
  unfold clearTimeout
  rw [List.filter_eq_nil_iff]
  intro t ht
  have := (hinv.1 t ht).1
  simp [this]

theorem throttleInvariant_call {α : Type} (wait now time : Nat) (args : α)
    (st : ThrottleState α) (hinv : ThrottleInvariant wait now st) (hle : now ≤ time) :
    ThrottleInvariant wait time (throttle.executedFunction wait time args st) := by
  obtain ⟨h1, h2, h3⟩ := hinv
  refine ⟨?_, ?_, ?_⟩
  · intro t ht
    simp only [throttle.executedFunction,
      clearTimeout_eq_nil wait now st ⟨h1, h2, h3⟩, List.nil_append,
      List.mem_singleton] at ht
    subst ht
    refine ⟨rfl, ?_⟩
    intro p hp
    have := h2 p hp
    simp only [throttle.executedFunction] at hp ⊢
    omega
  · intro p hp
    exact le_trans (h2 p hp) hle
  · exact h3

theorem throttleInvariant_timerTask {α : Type} (wait now time : Nat)
    (st : ThrottleState α) (hinv : ThrottleInvariant wait now st) (hle : now ≤ time) :
    ThrottleInvariant wait time (throttle.timerTask time st) := by
  obtain ⟨h1, h2, h3⟩ := hinv
  unfold throttle.timerTask
  cases hfind : st.timers.find? (fun t => decide (t.due ≤ time)) with
  | none => exact ⟨h1, fun p hp => le_trans (h2 p hp) hle, h3⟩
  | some t =>
    have htmem : t ∈ st.timers := List.mem_of_find?_eq_some hfind
    have htdue : t.due ≤ time := by
      have := List.find?_some hfind
      simpa using this
    refine ⟨?_, ?_, ?_⟩
    · intro u hu
      exfalso
      simp only [throttle.later, clearTimeout, List.mem_filter, decide_eq_true_eq] at hu
      obtain ⟨⟨hu1, _⟩, hu2⟩ := hu
      exact hu2 ((h1 u hu1).1).symm
    · intro p hp
      simp only [throttle.later, List.mem_append, List.mem_singleton] at hp
      rcases hp with hp | hp
      · exact le_trans (h2 p hp) hle
      · subst hp
        exact le_refl _
    · simp only [throttle.later]
      rw [List.pairwise_append]
      refine ⟨h3, List.pairwise_singleton _ _, ?_⟩
      intro a ha b hb
      rw [List.mem_singleton] at hb
      subst hb
      have := (h1 t htmem).2 a ha
      simp only
      omega

theorem throttleInvariant_run {α : Type} (wait : Nat) (events : List (ThrottleEvent α))
    (now : Nat) (st : ThrottleState α) (hinv : ThrottleInvariant wait now st)
    (hafter : ∀ e ∈ events, now ≤ e.time)
    (hsorted : (events.map ThrottleEvent.time).Pairwise (fun a b => a ≤ b)) :
    (throttle.run wait events st).invoked.Pairwise (fun a b => a.1 + wait ≤ b.1) := by
  induction events generalizing now st with
  | nil => exact hinv.2.2
  | cons e rest ih =>
    rw [List.map_cons, List.pairwise_cons] at hsorted
    have hle : now ≤ e.time := hafter e (List.mem_cons_self _ _)
    have hstep : ThrottleInvariant wait e.time (throttle.step wait e st) := by
      cases e with
      | call time args => exact throttleInvariant_call wait now time args st hinv hle
      | timerTask time => exact throttleInvariant_timerTask wait now time st hinv hle
    refine ih e.time _ hstep ?_ hsorted.2
    intro e2 he2
    exact hsorted.1 e2.time (List.mem_map_of_mem _ he2)

/-- C6. For every `wait` and every sequence of calls to the function returned by
`throttle(func, wait)` and of host timer tasks, happening at non-decreasing times, any two
invocations of `func` are at least `wait` ms apart; in particular the progress callback of
`createCustomUploadManager` is invoked at most once per 100 ms. -/
theorem throttle_invocations_spaced {α : Type} (wait : Nat) (events : List (ThrottleEvent α))
    (progressEvents : List (ThrottleEvent (JSVal × JSVal)))
    (hsorted : (events.map ThrottleEvent.time).Pairwise (fun a b => a ≤ b))
    (hprogress : (progressEvents.map ThrottleEvent.time).Pairwise (fun a b => a ≤ b)) :
    (throttle.invocationTimes wait events).Pairwise (fun a b => a + wait ≤ b) ∧
    (createCustomUploadManager.onProgress progressEvents).Pairwise (fun a b => a + 100 ≤ b) := by
  constructor
  · unfold throttle.invocationTimes
    rw [List.pairwise_map]
    exact throttleInvariant_run wait events 0 _ (throttleInvariant_init α wait)
      (fun e _ => Nat.zero_le _) hsorted
  · unfold createCustomUploadManager.onProgress throttle.invocationTimes
    rw [List.pairwise_map]
    exact throttleInvariant_run 100 progressEvents 0 _ (throttleInvariant_init _ 100)
      (fun e _ => Nat.zero_le _) hprogress

/-- The sample progress events: two calls 50 ms apart produce one invocation, 100 ms after
the second call; a later call produces the next one, at least 100 ms after the first. -/
theorem throttle_invocations_spaced_witness :
    (sampleProgressEvents.map ThrottleEvent.time).Pairwise (fun a b => a ≤ b) ∧
    createCustomUploadManager.onProgress sampleProgressEvents = [150, 300] ∧
    (throttle.invocationTimes 100 sampleProgressEvents).Pairwise (fun a b => a + 100 ≤ b) ∧
    (createCustomUploadManager.onProgress sampleProgressEvents).Pairwise
      (fun a b => a + 100 ≤ b) :=
  ⟨by decide, by decide,
    (throttle_invocations_spaced 100 sampleProgressEvents sampleProgressEvents (by decide)
      (by decide)).1,
    (throttle_invocations_spaced 100 sampleProgressEvents sampleProgressEvents (by decide)
      (by decide)).2⟩

end UploadManagerExamples
